import Mathlib

/-!
Verification of the post-reminder script (`src/main.py`): a single-pass batch
job that queries a Notion database, checks three milestone date properties of
each page against "tomorrow", and posts a Slack message for each milestone
whose date is exactly one calendar day ahead.

The embedding below is a shallow model of `src/main.py`:
* calendar dates are `Date` records; `datetime.strptime(s, '%Y-%m-%d')` is
  modelled by `strptimeDate` (returning `none` where Python raises
  `ValueError`);
* `datetime.now()` is abstracted to its date component, passed in as the
  `today : Date` parameter (time-of-day is ignored by the script, which only
  compares `.date()` values);
* Notion property dicts are modelled by `NotionProp` records with optional
  fields (a missing dict key is `none`; Python truthiness of a list-valued
  field is "present and non-empty");
* the Slack client is abstracted to a `post : String → String → Except String
  Unit` parameter (`Except.error` models `SlackApiError`), and the Notion
  query result to an `Except PyExc QueryResponse` parameter;
* Python exceptions inside `main`'s `try` block are modelled by the
  `Except (PyExc × RunState)` monad; the error carries the run state at the
  moment the exception is raised, so that notifications already dispatched
  remain observable on the abort path;
* `mainRun` is total and returns a `RunResult` describing the observable
  outcome of one invocation of `main()`: the two counters, the ordered list of
  attempted Slack posts, what (if anything) the top-level handlers logged, and
  the process exit status.  The script's `main()` swallows every exception, so
  the interpreter exits with status 0 on every path that reaches `main()`
  (the only nonzero exit, `exit(1)` on missing configuration, happens before
  `main` and is outside this model).
-/

/-- A Gregorian calendar date (the `.date()` component of a Python
`datetime`). -/
structure Date where
  year : Nat
  month : Nat
  day : Nat
deriving DecidableEq, Repr

/-- Gregorian leap-year rule, as used by Python's `datetime`. -/
def isLeapYear (y : Nat) : Bool :=
  (y % 4 == 0 && y % 100 != 0) || y % 400 == 0

/-- Number of days in month `m` of year `y` (months are 1-based). -/
def daysInMonth (y m : Nat) : Nat :=
  if m = 2 then (if isLeapYear y then 29 else 28)
  else if m = 4 ∨ m = 6 ∨ m = 9 ∨ m = 11 then 30
  else 31

/-- The calendar day after `d`: models `(dt + timedelta(days=1)).date()` for a
valid datetime `dt` whose date component is `d` (adding exactly 24h keeps the
time of day, so the date component advances by exactly one calendar day). -/
def nextDay (d : Date) : Date :=
  if d.day < daysInMonth d.year d.month then ⟨d.year, d.month, d.day + 1⟩
  else if d.month < 12 then ⟨d.year, d.month + 1, 1⟩
  else ⟨d.year + 1, 1, 1⟩

/-- Split a character list on a separator character (like `str.split('-')` in
Python / `String.splitOn "-"`): `splitOnChar '-' "a-b".data = [[a],[b]]`, and
the empty list yields `[[]]`. -/
def splitOnChar (c : Char) : List Char → List (List Char)
  | [] => [[]]
  | x :: xs =>
    if x = c then [] :: splitOnChar c xs
    else
      match splitOnChar c xs with
      | [] => [[x]]
      | g :: gs => (x :: g) :: gs

/-- Read a non-empty, all-digit character list as a decimal number;
`none` otherwise. -/
def digitsToNat (l : List Char) : Option Nat :=
  if l ≠ [] ∧ l.all Char.isDigit then
    some (l.foldl (fun n c => n * 10 + (c.toNat - 48)) 0)
  else none

/-- Models `datetime.strptime(s, '%Y-%m-%d').date()`, returning `none` where
Python raises `ValueError`.  CPython's `_strptime` matches `%Y` as exactly
four digits and `%m`/`%d` as one or two digits, requires the whole string to
be consumed, and then validates the field values when constructing the
`datetime` (month 1–12, day within the month, year ≥ 1). -/
def strptimeDate (s : String) : Option Date :=
  match splitOnChar '-' s.data with
  | [ys, ms, ds] =>
    match digitsToNat ys, digitsToNat ms, digitsToNat ds with
    | some y, some m, some d =>
      if ys.length = 4 ∧ ms.length ≤ 2 ∧ ds.length ≤ 2
          ∧ 1 ≤ y ∧ 1 ≤ m ∧ m ≤ 12 ∧ 1 ≤ d ∧ d ≤ daysInMonth y m then
        some ⟨y, m, d⟩
      else none
    | _, _, _ => none
  | _ => none

/-- The Python exceptions that can be raised inside `main`'s `try` block. -/
inductive PyExc where
  | apiResponseError (msg : String)
  | valueError (msg : String)
deriving DecidableEq, Repr

deriving instance DecidableEq for Except

/-- Model of `check_date_proximity(date_str)` from `src/main.py`.  `date_str : Option
String` models the Python value (`none` is `None`); the Python guard
`if not date_str` is true for `None` and for the empty string.  The
`ValueError` raised by `strptime` on an unparseable string is modelled as
`Except.error (.valueError date_str)`, carrying the offending input. -/
def check_date_proximity (today : Date) (date_str : Option String) : Except PyExc Bool :=
  match date_str with
  | none => Except.ok false
  | some s =>
    if s = "" then Except.ok false
    else
      match strptimeDate s with
      | none => Except.error (PyExc.valueError s)
      | some date => Except.ok (decide (date = nextDay today))

/-- One element of a Notion title property's `title` array; `plain_text` is
`none` when the `plain_text` key is missing from the segment dict. -/
structure TitleSegment where
  plain_text : Option String := none
deriving DecidableEq, Repr

/-- One element of a Notion people property's `people` array; `name` is `none`
when the `name` key is missing. -/
structure Person where
  name : Option String := none
deriving DecidableEq, Repr

/-- A Notion date property's `date` object: a `start` string and an optional
`end` string.  The script only ever reads `start`. -/
structure DateObj where
  start : Option String := none
  «end» : Option String := none
deriving DecidableEq, Repr

/-- A Notion property value: a `type` tag plus the type-specific payloads the
script reads.  A field is `none` when the corresponding dict key is missing or
its value is `null`; for the list-valued payloads, Python truthiness
(`prop.get('title')`, `prop.get('people')`) is "present and non-empty". -/
structure NotionProp where
  type : Option String := none
  title : Option (List TitleSegment) := none
  people : Option (List Person) := none
  date : Option DateObj := none
deriving DecidableEq, Repr

/-- A page's `properties` dict: an association list from property name to
property value (Notion property names are unique keys). -/
abbrev Props : Type := List (String × NotionProp)

/-- Model of `properties.get(key, {})`: look the key up, defaulting to the empty
dict (all fields absent). -/
def propGet (properties : Props) (key : String) : NotionProp :=
  (List.lookup key properties).getD {}

def NOTION_FIRST_DRAFT_DATE_PROP : String := "first_draft_date"
def NOTION_READY_BY_DATE_PROP : String := "ready_by_date"
def NOTION_PUBLISHING_DATE_PROP : String := "publishing_date"
def NOTION_TITLE_PROP : String := "title"
def NOTION_AUTHOR_PROP : String := "author"

/-- Model of `get_page_title(properties)` from `src/main.py`: if the `title` property's
declared type is `'title'` and its `title` array is truthy (present and
non-empty), return the first segment's `plain_text` with default
`'Untitled'`; otherwise `'Untitled'`. -/
def get_page_title (properties : Props) : String :=
  let title_prop := propGet properties NOTION_TITLE_PROP
  if title_prop.type = some "title" then
    match title_prop.title with
    | some (seg :: _) => seg.plain_text.getD "Untitled"
    | _ => "Untitled"
  else "Untitled"

/-- Model of `get_page_author_mention(properties)` from `src/main.py`: if the `author`
property's declared type is `'people'` and its `people` array is truthy,
return the first person's `name` with default `'Unknown Author'`; otherwise
`'Unknown Author'`. -/
def get_page_author_mention (properties : Props) : String :=
  let author_prop := propGet properties NOTION_AUTHOR_PROP
  if author_prop.type = some "people" then
    match author_prop.people with
    | some (person :: _) => person.name.getD "Unknown Author"
    | _ => "Unknown Author"
  else "Unknown Author"

/-- Model of `get_date_property(properties, prop_name)` from `src/main.py`: if the
property's declared type is `'date'` and its `date` object is truthy (present,
non-null), return that object's `start`; otherwise `None`. -/
def get_date_property (properties : Props) (prop_name : String) : Option String :=
  let date_prop := propGet properties prop_name
  if date_prop.type = some "date" then
    match date_prop.date with
    | some dateObj => dateObj.start
    | none => none
  else none

/-- The message template built by `send_slack_message`. -/
def build_message (author_mention title stage : String) : String :=
  author_mention ++ " - Your post '" ++ title ++ "', has the " ++ stage ++
    " date coming up tomorrow - please ensure that your content is ready and reviewed as per the right stage."

/-- The observable outcome of one `send_slack_message` call: the channel and
text of the attempted `chat_postMessage`, and the error string logged if the
Slack client raised `SlackApiError` (`none` on success).  The function itself
never raises. -/
structure SendOutcome where
  channel : String
  text : String
  logged : Option String
deriving DecidableEq, Repr

/-- Model of `send_slack_message(author_mention, title, stage)` from `src/main.py`.
`channelId` is the `SLACK_CHANNEL_ID` configuration value; `post` abstracts
`slack_client.chat_postMessage` (an `Except.error` models `SlackApiError`).
The `try/except SlackApiError` block catches a delivery failure and logs it;
nothing propagates to the caller. -/
def send_slack_message (channelId : String) (post : String → String → Except String Unit)
    (author_mention title stage : String) : SendOutcome :=
  let message := build_message author_mention title stage
  match post channelId message with
  | Except.ok _ => { channel := channelId, text := message, logged := none }
  | Except.error e => { channel := channelId, text := message, logged := some e }

/-- One page of the Notion query response: `page.get('id')` and
`page.get('properties', {})`. -/
structure Page where
  id : Option String := none
  properties : Option Props := none
deriving DecidableEq, Repr

/-- The Notion `databases.query` response; the script reads
`response.get('results', [])`. -/
structure QueryResponse where
  results : Option (List Page) := none
deriving DecidableEq, Repr

/-- The mutable state of `main`'s loop: the `processed_pages` and
`notifications_sent` counters and, for observability, the ordered list of
Slack dispatch attempts made so far. -/
structure RunState where
  processed : Nat := 0
  sent : Nat := 0
  dispatched : List SendOutcome := []
deriving DecidableEq, Repr

/-- The `dates_to_check` dict of `main`, as the ordered list of (stage label,
extracted date) pairs; Python dicts iterate in insertion order, so the three
milestones are always visited in this fixed order. -/
def milestoneList (properties : Props) : List (String × Option String) :=
  [("first draft", get_date_property properties NOTION_FIRST_DRAFT_DATE_PROP),
   ("final draft", get_date_property properties NOTION_READY_BY_DATE_PROP),
   ("published version", get_date_property properties NOTION_PUBLISHING_DATE_PROP)]

/-- The inner `for stage, date_str in dates_to_check.items()` loop of `main`.
A `ValueError` from `check_date_proximity` aborts the loop; the error carries
the run state at that moment (dispatches already made are not rolled back). -/
def checkMilestones (today : Date) (channelId : String)
    (post : String → String → Except String Unit) (author_mention title : String) :
    RunState → List (String × Option String) → Except (PyExc × RunState) RunState
  | st, [] => Except.ok st
  | st, (stage, date_str) :: rest =>
    match check_date_proximity today date_str with
    | Except.error e => Except.error (e, st)
    | Except.ok false => checkMilestones today channelId post author_mention title st rest
    | Except.ok true =>
      let outcome := send_slack_message channelId post author_mention title stage
      checkMilestones today channelId post author_mention title
        { st with sent := st.sent + 1, dispatched := st.dispatched ++ [outcome] } rest

/-- The body of `main`'s `for page in response.get('results', [])` loop for a
single page: bump `processed_pages`, extract title and author, then check the
three milestones. -/
def processPage (today : Date) (channelId : String)
    (post : String → String → Except String Unit) (st : RunState) (page : Page) :
    Except (PyExc × RunState) RunState :=
  let st := { st with processed := st.processed + 1 }
  let properties := page.properties.getD []
  let title := get_page_title properties
  let author_mention := get_page_author_mention properties
  checkMilestones today channelId post author_mention title st (milestoneList properties)

/-- The page loop of `main` over the whole result list. -/
def processPages (today : Date) (channelId : String)
    (post : String → String → Except String Unit) :
    RunState → List Page → Except (PyExc × RunState) RunState
  | st, [] => Except.ok st
  | st, page :: rest =>
    match processPage today channelId post st page with
    | Except.error e => Except.error e
    | Except.ok st' => processPages today channelId post st' rest

/-- What `main`'s two `except` handlers log: `APIResponseError` is caught by
the first handler, any other exception (here, `ValueError` from `strptime`) by
the generic one. -/
def handlerLog : PyExc → String
  | PyExc.apiResponseError e => "Notion API Error: " ++ e
  | PyExc.valueError e => "An unexpected error occurred: " ++ e

/-- The observable outcome of one invocation of `main()`. -/
structure RunResult where
  processed : Nat
  sent : Nat
  dispatched : List SendOutcome
  loggedError : Option String
  summaryLogged : Bool
  exitCode : Nat
deriving DecidableEq, Repr

/-- Model of `main()` from `src/main.py`.  Here `queryResult` abstracts
`notion.databases.query(...)` (an `Except.error` models a raised exception).
Every exception raised inside the `try` block is caught by one of the two
handlers and logged; `main` never re-raises, and the script then falls off the
end of `if __name__ == "__main__": main()`, so the process exit status is 0 on
every path through `main` (the `exit(1)` for missing configuration happens
before `main` is ever called and is outside this model). -/
def mainRun (today : Date) (channelId : String)
    (post : String → String → Except String Unit)
    (queryResult : Except PyExc QueryResponse) : RunResult :=
  match queryResult with
  | Except.error e =>
    { processed := 0, sent := 0, dispatched := [],
      loggedError := some (handlerLog e), summaryLogged := false, exitCode := 0 }
  | Except.ok response =>
    match processPages today channelId post {} (response.results.getD []) with
    | Except.ok st =>
      { processed := st.processed, sent := st.sent, dispatched := st.dispatched,
        loggedError := none, summaryLogged := true, exitCode := 0 }
    | Except.error (e, st) =>
      { processed := st.processed, sent := st.sent, dispatched := st.dispatched,
        loggedError := some (handlerLog e), summaryLogged := false, exitCode := 0 }

/-- Holds when `check_date_proximity` succeeded (no `ValueError`). -/
def checkOk (today : Date) (date_str : Option String) : Bool :=
  match check_date_proximity today date_str with
  | Except.ok _ => true
  | Except.error _ => false

/-- Holds when `check_date_proximity` returned `True` (the milestone fires). -/
def passes (today : Date) (date_str : Option String) : Bool :=
  match check_date_proximity today date_str with
  | Except.ok b => b
  | Except.error _ => false

/-- No milestone of this page raises a `ValueError`. -/
def noParseFailure (today : Date) (properties : Props) : Bool :=
  (milestoneList properties).all fun ms => checkOk today ms.2

/-- The number of notifications `main` sends for one page (when nothing
raises): the number of milestones whose date passes the proximity rule. -/
def pageSentCount (today : Date) (page : Page) : Nat :=
  (milestoneList (page.properties.getD [])).countP fun ms => passes today ms.2

/-- The Slack dispatch attempts `main` makes for one page, in milestone
order. -/
def pageMessages (today : Date) (channelId : String)
    (post : String → String → Except String Unit) (page : Page) : List SendOutcome :=
  let properties := page.properties.getD []
  ((milestoneList properties).filter fun ms => passes today ms.2).map fun ms =>
    send_slack_message channelId post (get_page_author_mention properties)
      (get_page_title properties) ms.1

/-- When no milestone of the list raises, the inner loop returns normally:
it adds one sent notification and one dispatch attempt per passing milestone,
in order, and leaves `processed` unchanged. -/
theorem checkMilestones_ok (today : Date) (ch : String)
    (post : String → String → Except String Unit) (a t : String)
    (ms : List (String × Option String)) :
    ∀ st : RunState, (ms.all fun m => checkOk today m.2) = true →
    checkMilestones today ch post a t st ms = Except.ok
      { processed := st.processed,
        sent := st.sent + (ms.countP fun m => passes today m.2),
        dispatched := st.dispatched ++ ((ms.filter fun m => passes today m.2).map fun m =>
          send_slack_message ch post a t m.1) } := by
  induction ms with
  | nil => intro st _; simp [checkMilestones]
  | cons m rest ih =>
    intro st h
    obtain ⟨stage, ds⟩ := m
    simp only [List.all_cons, Bool.and_eq_true] at h
    obtain ⟨h1, h2⟩ := h
    cases hc : check_date_proximity today ds with
    | error e => simp [checkOk, hc] at h1
    | ok b =>
      have hpass : passes today ds = b := by simp [passes, hc]
      simp only [checkMilestones, hc]
      cases b with
      | false =>
        rw [ih st h2]
        simp [List.countP_cons, List.filter_cons, hpass]
      | true =>
        dsimp only
        rw [ih _ h2]
        simp only [List.countP_cons, List.filter_cons, List.map_cons, hpass, if_true,
          List.append_assoc, List.singleton_append,
          Except.ok.injEq, RunState.mk.injEq]
        exact ⟨trivial, by omega, trivial⟩

/-- When no milestone of the page raises, processing the page returns
normally: `processed` goes up by one, `sent` by the page's passing-milestone
count, and the page's dispatch attempts are appended. -/
theorem processPage_ok (today : Date) (ch : String)
    (post : String → String → Except String Unit) (st : RunState) (page : Page)
    (h : noParseFailure today (page.properties.getD []) = true) :
    processPage today ch post st page = Except.ok
      { processed := st.processed + 1,
        sent := st.sent + pageSentCount today page,
        dispatched := st.dispatched ++ pageMessages today ch post page } := by
  unfold processPage pageSentCount pageMessages
  rw [checkMilestones_ok today ch post _ _ _ _ h]

/-- When no milestone of any page raises, the page loop returns normally with
the expected counters and dispatch list. -/
theorem processPages_ok (today : Date) (ch : String)
    (post : String → String → Except String Unit) (pages : List Page) :
    ∀ st : RunState,
    (pages.all fun p => noParseFailure today (p.properties.getD [])) = true →
    processPages today ch post st pages = Except.ok
      { processed := st.processed + pages.length,
        sent := st.sent + (pages.map fun p => pageSentCount today p).sum,
        dispatched := st.dispatched ++ (pages.map fun p => pageMessages today ch post p).flatten } := by
  induction pages with
  | nil => intro st _; simp [processPages]
  | cons page rest ih =>
    intro st h
    simp only [List.all_cons, Bool.and_eq_true] at h
    obtain ⟨h1, h2⟩ := h
    simp only [processPages]
    rw [processPage_ok today ch post st page h1]
    dsimp only
    rw [ih _ h2]
    simp only [List.length_cons, List.map_cons, List.sum_cons, List.flatten_cons,
      List.append_assoc, Except.ok.injEq, RunState.mk.injEq]
    refine ⟨by omega, by omega, trivial⟩

/-- The page loop splits over list append: run the first part, then (if it
returned normally) the second from the resulting state. -/
theorem processPages_append (today : Date) (ch : String)
    (post : String → String → Except String Unit) (xs ys : List Page) :
    ∀ st : RunState,
    processPages today ch post st (xs ++ ys) =
      match processPages today ch post st xs with
      | Except.ok st' => processPages today ch post st' ys
      | Except.error e => Except.error e := by
  induction xs with
  | nil => intro st; simp [processPages]
  | cons page rest ih =>
    intro st
    simp only [List.cons_append, processPages]
    cases processPage today ch post st page with
    | error e => rfl
    | ok st' => exact ih st'

/-- Characterization: `send_slack_message` always records the template text and configured
channel; its logged error is exactly the sink's error, if any. -/
theorem send_slack_message_eq (channelId : String)
    (post : String → String → Except String Unit) (a t s : String) :
    send_slack_message channelId post a t s =
      { channel := channelId, text := build_message a t s,
        logged := match post channelId (build_message a t s) with
                  | Except.ok _ => none
                  | Except.error e => some e } := by
  cases hp : post channelId (build_message a t s) <;> simp [send_slack_message, hp]

/-- The empty date string is rejected by the parser. -/
theorem strptimeDate_empty : strptimeDate "" = none := by decide

/-- C1: for every well-formed `YYYY-MM-DD` string `D` (one the parser accepts,
yielding date `d`), `check_date_proximity` returns normally, and returns
`True` iff `d` is exactly the calendar day after `today` — so it returns
`False` for today, yesterday, today plus two days, and every other valid
date. -/
theorem c1_proximity_true_iff_tomorrow (today : Date) (D : String) (d : Date)
    (h : strptimeDate D = some d) :
    (∃ b, check_date_proximity today (some D) = Except.ok b) ∧
    (check_date_proximity today (some D) = Except.ok true ↔ d = nextDay today) := by
  have hD : D ≠ "" := by
    intro he
    rw [he, strptimeDate_empty] at h
    cases h
  simp only [check_date_proximity, if_neg hD, h]
  refine ⟨⟨_, rfl⟩, ?_⟩
  simp [Except.ok.injEq, decide_eq_true_iff]

/-- Witness for C1: on 2024-02-28, the string "2024-02-29" (leap day) is
exactly one day ahead. -/
theorem c1_witness :
    (∃ b, check_date_proximity ⟨2024, 2, 28⟩ (some "2024-02-29") = Except.ok b) ∧
    (check_date_proximity ⟨2024, 2, 28⟩ (some "2024-02-29") = Except.ok true ↔
      (⟨2024, 2, 29⟩ : Date) = nextDay ⟨2024, 2, 28⟩) :=
  c1_proximity_true_iff_tomorrow ⟨2024, 2, 28⟩ "2024-02-29" ⟨2024, 2, 29⟩ (by decide)

/-- C3 as stated is false: the empty string is a present input that is not
parseable as `YYYY-MM-DD`, yet `check_date_proximity` returns `False` instead
of raising — the `if not date_str` guard treats it as absent. -/
theorem c3_counterexample :
    strptimeDate "" = none ∧
    check_date_proximity ⟨2024, 5, 14⟩ (some "") = Except.ok false := by
  exact ⟨strptimeDate_empty, rfl⟩

/-- C3 (amended): absent input returns `False` without raising, and every
present *non-empty* input string that is not parseable as `YYYY-MM-DD` raises
a `ValueError` rather than returning `False`; the present-but-empty string
takes the absent branch and returns `False`. -/
theorem c3_asymmetric_error_behavior (today : Date) :
    check_date_proximity today none = Except.ok false ∧
    (∀ s : String, s ≠ "" → strptimeDate s = none →
      check_date_proximity today (some s) = Except.error (PyExc.valueError s)) ∧
    check_date_proximity today (some "") = Except.ok false := by
  refine ⟨rfl, ?_, rfl⟩
  intro s hs hp
  simp only [check_date_proximity, if_neg hs, hp]

/-- Witness for C3 (amended) at concrete inputs. -/
theorem c3_witness :
    check_date_proximity ⟨2024, 5, 14⟩ none = Except.ok false ∧
    check_date_proximity ⟨2024, 5, 14⟩ (some "not-a-date") =
      Except.error (PyExc.valueError "not-a-date") :=
  ⟨(c3_asymmetric_error_behavior ⟨2024, 5, 14⟩).1,
   (c3_asymmetric_error_behavior ⟨2024, 5, 14⟩).2.1 "not-a-date" (by decide) (by decide)⟩

/-- C10: `check_date_proximity` on the present-but-empty string returns
`False` without raising, because `if not date_str` is true for every falsy
string — the empty string takes the absent branch instead of reaching
`strptime`. -/
theorem c10_empty_string_takes_absent_branch (today : Date) :
    check_date_proximity today (some "") = Except.ok false := rfl

/-- C9: when the Notion query raises `APIResponseError`, the top-level handler
catches it and logs the source's error detail; nothing propagates (`mainRun`
is total and returns normally), nothing is processed or sent, and the process
exits with status 0. -/
theorem c9_fetch_failure_logged_and_swallowed (today : Date) (ch : String)
    (post : String → String → Except String Unit) (e : String) :
    mainRun today ch post (Except.error (PyExc.apiResponseError e)) =
      { processed := 0, sent := 0, dispatched := [],
        loggedError := some ("Notion API Error: " ++ e),
        summaryLogged := false, exitCode := 0 } := rfl

/-- C8: `send_slack_message` posts exactly the fixed-template message to the
statically configured channel; a delivery error from the sink is caught and
logged (`logged = some e`) rather than raised, and a successful delivery logs
nothing. The function's return type carries no exception: a failed delivery
never aborts the run. -/
theorem c8_send_slack_message_template_and_catch (channelId : String)
    (post : String → String → Except String Unit) (author_mention title stage : String) :
    (send_slack_message channelId post author_mention title stage).channel = channelId ∧
    (send_slack_message channelId post author_mention title stage).text =
      author_mention ++ " - Your post '" ++ title ++ "', has the " ++ stage ++
        " date coming up tomorrow - please ensure that your content is ready and reviewed as per the right stage." ∧
    (∀ e, post channelId (build_message author_mention title stage) = Except.error e →
      (send_slack_message channelId post author_mention title stage).logged = some e) ∧
    (∀ u, post channelId (build_message author_mention title stage) = Except.ok u →
      (send_slack_message channelId post author_mention title stage).logged = none) := by
  rw [send_slack_message_eq]
  refine ⟨rfl, rfl, ?_, ?_⟩
  · intro e he
    simp [he]
  · intro u hu
    simp [hu]

/-- Witness for C8: a sink that rejects the message with `channel_not_found`
yields the template text and a logged (not raised) error. -/
theorem c8_witness :
    (send_slack_message "C123" (fun _ _ => Except.error "channel_not_found")
      "Alice" "My Post" "first draft").text =
      "Alice - Your post 'My Post', has the first draft date coming up tomorrow - please ensure that your content is ready and reviewed as per the right stage." ∧
    (send_slack_message "C123" (fun _ _ => Except.error "channel_not_found")
      "Alice" "My Post" "first draft").logged = some "channel_not_found" := by
  have h := c8_send_slack_message_template_and_catch "C123"
    (fun _ _ => Except.error "channel_not_found") "Alice" "My Post" "first draft"
  exact ⟨h.2.1.trans (by decide), h.2.2.1 "channel_not_found" rfl⟩

/-- C5: title extraction defaults safely.  If the `title` property is absent,
or its declared type is not `'title'`, or its segment list is absent/empty,
the result is `'Untitled'`; if the type is `'title'` and the first segment
carries plain text `s`, the result is `s` (so `"Foo"` yields `"Foo"`); if the
first segment is the empty dict (no `plain_text`), the result defaults to
`'Untitled'`. -/
theorem c5_title_extraction_defaults (properties : Props) :
    (List.lookup NOTION_TITLE_PROP properties = none →
      get_page_title properties = "Untitled") ∧
    (∀ tp, List.lookup NOTION_TITLE_PROP properties = some tp →
      (tp.type ≠ some "title" → get_page_title properties = "Untitled") ∧
      ((tp.title = none ∨ tp.title = some []) → get_page_title properties = "Untitled") ∧
      (∀ s rest, tp.type = some "title" →
        tp.title = some ({ plain_text := some s } :: rest) →
        get_page_title properties = s) ∧
      (∀ rest, tp.type = some "title" →
        tp.title = some ({ plain_text := none } :: rest) →
        get_page_title properties = "Untitled")) := by
  constructor
  · intro h
    simp [get_page_title, propGet, h]
  · intro tp h
    refine ⟨?_, ?_, ?_, ?_⟩
    · intro ht
      simp [get_page_title, propGet, h, ht]
    · rintro (ht | ht) <;> simp [get_page_title, propGet, h, ht]
    · intro s rest ht hl
      simp [get_page_title, propGet, h, ht, hl]
    · intro rest ht hl
      simp [get_page_title, propGet, h, ht, hl]

/-- Witness for C5 at concrete property mappings. -/
theorem c5_witness :
    get_page_title [] = "Untitled" ∧
    get_page_title [("title", { type := some "rich_text" })] = "Untitled" ∧
    get_page_title [("title", { type := some "title", title := some [] })] = "Untitled" ∧
    get_page_title
      [("title", { type := some "title", title := some [{ plain_text := some "Foo" }] })] = "Foo" ∧
    get_page_title [("title", { type := some "title", title := some [{}] })] = "Untitled" := by
  refine ⟨(c5_title_extraction_defaults []).1 (by decide), ?_, ?_, ?_, ?_⟩
  · exact ((c5_title_extraction_defaults _).2
      { type := some "rich_text" } (by decide)).1 (by decide)
  · exact ((c5_title_extraction_defaults _).2
      { type := some "title", title := some [] } (by decide)).2.1 (Or.inr (by decide))
  · exact ((c5_title_extraction_defaults _).2
      { type := some "title", title := some [{ plain_text := some "Foo" }] }
      (by decide)).2.2.1 "Foo" [] (by decide) (by decide)
  · exact ((c5_title_extraction_defaults _).2
      { type := some "title", title := some [{}] } (by decide)).2.2.2 [] (by decide) (by decide)

/-- C6: author extraction defaults safely.  If the `author` property is
absent, or its declared type is not `'people'`, or its people list is
absent/empty, the result is `'Unknown Author'`; if the type is `'people'` and
the first person carries name `s`, the result is `s` (so `"Alice"` yields
`"Alice"`); a first person without a name defaults to `'Unknown Author'`. -/
theorem c6_author_extraction_defaults (properties : Props) :
    (List.lookup NOTION_AUTHOR_PROP properties = none →
      get_page_author_mention properties = "Unknown Author") ∧
    (∀ ap, List.lookup NOTION_AUTHOR_PROP properties = some ap →
      (ap.type ≠ some "people" → get_page_author_mention properties = "Unknown Author") ∧
      ((ap.people = none ∨ ap.people = some []) →
        get_page_author_mention properties = "Unknown Author") ∧
      (∀ s rest, ap.type = some "people" →
        ap.people = some ({ name := some s } :: rest) →
        get_page_author_mention properties = s) ∧
      (∀ rest, ap.type = some "people" →
        ap.people = some ({ name := none } :: rest) →
        get_page_author_mention properties = "Unknown Author")) := by
  constructor
  · intro h
    simp [get_page_author_mention, propGet, h]
  · intro ap h
    refine ⟨?_, ?_, ?_, ?_⟩
    · intro ht
      simp [get_page_author_mention, propGet, h, ht]
    · rintro (ht | ht) <;> simp [get_page_author_mention, propGet, h, ht]
    · intro s rest ht hl
      simp [get_page_author_mention, propGet, h, ht, hl]
    · intro rest ht hl
      simp [get_page_author_mention, propGet, h, ht, hl]

/-- Witness for C6 at concrete property mappings. -/
theorem c6_witness :
    get_page_author_mention [] = "Unknown Author" ∧
    get_page_author_mention
      [("author", { type := some "people", people := some [{ name := some "Alice" }] })] = "Alice" ∧
    get_page_author_mention
      [("author", { type := some "people", people := some [] })] = "Unknown Author" := by
  refine ⟨(c6_author_extraction_defaults []).1 (by decide), ?_, ?_⟩
  · exact ((c6_author_extraction_defaults _).2
      { type := some "people", people := some [{ name := some "Alice" }] }
      (by decide)).2.2.1 "Alice" [] (by decide) (by decide)
  · exact ((c6_author_extraction_defaults _).2
      { type := some "people", people := some [] } (by decide)).2.1 (Or.inr (by decide))

/-- C7: milestone-date extraction is total (it returns an `Option`, never
raises) and, for every property mapping and key: if the property is absent,
its declared type is not `'date'`, or its date object is absent, the result is
`none`; otherwise the result is the date object's `start` string, whatever its
`end` field holds. -/
theorem c7_date_extraction_defaults (properties : Props) (prop_name : String) :
    (List.lookup prop_name properties = none →
      get_date_property properties prop_name = none) ∧
    (∀ dp, List.lookup prop_name properties = some dp →
      (dp.type ≠ some "date" → get_date_property properties prop_name = none) ∧
      (dp.date = none → get_date_property properties prop_name = none) ∧
      (∀ s e, dp.type = some "date" → dp.date = some { start := s, «end» := e } →
        get_date_property properties prop_name = s)) := by
  constructor
  · intro h
    simp [get_date_property, propGet, h]
  · intro dp h
    refine ⟨?_, ?_, ?_⟩
    · intro ht
      simp [get_date_property, propGet, h, ht]
    · intro hd
      simp [get_date_property, propGet, h, hd]
    · intro s e ht hd
      simp [get_date_property, propGet, h, ht, hd]

/-- Witness for C7 at concrete property mappings, including an `end` field
that is present but ignored. -/
theorem c7_witness :
    get_date_property [] "ready_by_date" = none ∧
    get_date_property [("ready_by_date", { type := some "checkbox" })] "ready_by_date" = none ∧
    get_date_property [("ready_by_date", { type := some "date" })] "ready_by_date" = none ∧
    get_date_property
      [("ready_by_date",
        { type := some "date",
          date := some { start := some "2024-05-15", «end» := some "2024-05-20" } })]
      "ready_by_date" = some "2024-05-15" := by
  refine ⟨(c7_date_extraction_defaults [] _).1 (by decide), ?_, ?_, ?_⟩
  · exact ((c7_date_extraction_defaults _ _).2
      { type := some "checkbox" } (by decide)).1 (by decide)
  · exact ((c7_date_extraction_defaults _ _).2
      { type := some "date" } (by decide)).2.1 (by decide)
  · exact ((c7_date_extraction_defaults _ _).2
      { type := some "date",
        date := some { start := some "2024-05-15", «end» := some "2024-05-20" } }
      (by decide)).2.2 (some "2024-05-15") (some "2024-05-20") (by decide) (by decide)

/-- C2: when no milestone date of any fetched page raises a parse error, the
run processes every record, evaluates the proximity rule on exactly the three
milestones {first draft, final draft, published version} in that fixed order,
dispatches exactly one notification per passing (record, milestone) pair, and
reports processed-count = number of records and sent-count = number of passing
pairs — counting attempted dispatches whatever the sink `post` returns. -/
theorem c2_orchestration_counts (today : Date) (ch : String)
    (post : String → String → Except String Unit) (pages : List Page)
    (h : (pages.all fun p => noParseFailure today (p.properties.getD [])) = true) :
    mainRun today ch post (Except.ok { results := some pages }) =
      { processed := pages.length,
        sent := (pages.map fun p => pageSentCount today p).sum,
        dispatched := (pages.map fun p => pageMessages today ch post p).flatten,
        loggedError := none, summaryLogged := true, exitCode := 0 } := by
  unfold mainRun
  dsimp only
  rw [show ({ results := some pages } : QueryResponse).results.getD [] = pages from rfl]
  rw [processPages_ok today ch post pages {} h]
  simp

set_option maxRecDepth 8000 in
/-- Witness for C2: the spec's end-to-end scenario.  On 2024-05-14, record A
has first-draft date 2024-05-15 (tomorrow), record B has all dates absent,
record C has publishing date 2024-05-15 and ready-by date 2024-05-16:
3 records processed, exactly 2 notifications dispatched (A/first draft and
C/published version), even though the sink rejects every message. -/
theorem c2_witness :
    mainRun ⟨2024, 5, 14⟩ "C123" (fun _ _ => Except.error "channel_not_found")
      (Except.ok { results := some [
        { id := some "A",
          properties := some [
            ("title", { type := some "title", title := some [{ plain_text := some "A" }] }),
            ("first_draft_date", { type := some "date", date := some { start := some "2024-05-15" } })] },
        { id := some "B", properties := some [] },
        { id := some "C",
          properties := some [
            ("title", { type := some "title", title := some [{ plain_text := some "C" }] }),
            ("publishing_date", { type := some "date", date := some { start := some "2024-05-15" } }),
            ("ready_by_date", { type := some "date", date := some { start := some "2024-05-16" } })] }] }) =
      { processed := 3, sent := 2,
        dispatched :=
          [{ channel := "C123",
             text := build_message "Unknown Author" "A" "first draft",
             logged := some "channel_not_found" },
           { channel := "C123",
             text := build_message "Unknown Author" "C" "published version",
             logged := some "channel_not_found" }],
        loggedError := none, summaryLogged := true, exitCode := 0 } :=
  (c2_orchestration_counts ⟨2024, 5, 14⟩ "C123" (fun _ _ => Except.error "channel_not_found")
    _ (by decide)).trans (by decide)

/-- C4: a present but malformed milestone date string is not caught
per-record.  If every milestone of the pages before `bad` parses, `bad`'s
first-draft milestone evaluates normally (to `b`), and `bad`'s ready-by date
is a present, non-empty, unparseable string `s`, then the `ValueError`
propagates out of the loops to the top-level generic handler: the run stops at
`bad` (the result does not depend on the remaining pages `rest` or on `bad`'s
later milestone), the summary line is never logged, and every notification
dispatched before the failure — including `bad`'s own first-draft one when `b`
is true — remains in the dispatch list (no rollback). -/
theorem c4_parse_failure_aborts_run (today : Date) (ch : String)
    (post : String → String → Except String Unit)
    (pre rest : List Page) (bad : Page) (s : String) (b : Bool)
    (hpre : (pre.all fun p => noParseFailure today (p.properties.getD [])) = true)
    (hfd : check_date_proximity today
      (get_date_property (bad.properties.getD []) NOTION_FIRST_DRAFT_DATE_PROP) = Except.ok b)
    (hrb : get_date_property (bad.properties.getD []) NOTION_READY_BY_DATE_PROP = some s)
    (hs : s ≠ "") (hparse : strptimeDate s = none) :
    mainRun today ch post (Except.ok { results := some (pre ++ bad :: rest) }) =
      { processed := pre.length + 1,
        sent := (pre.map fun p => pageSentCount today p).sum + (if b then 1 else 0),
        dispatched := (pre.map fun p => pageMessages today ch post p).flatten ++
          (if b then
            [send_slack_message ch post (get_page_author_mention (bad.properties.getD []))
              (get_page_title (bad.properties.getD [])) "first draft"]
           else []),
        loggedError := some ("An unexpected error occurred: " ++ s),
        summaryLogged := false, exitCode := 0 } := by
  have hcheck : check_date_proximity today (some s) = Except.error (PyExc.valueError s) := by
    simp only [check_date_proximity, if_neg hs, hparse]
  unfold mainRun
  dsimp only
  rw [show ({ results := some (pre ++ bad :: rest) } : QueryResponse).results.getD []
      = pre ++ bad :: rest from rfl]
  rw [processPages_append, processPages_ok today ch post pre {} hpre]
  dsimp only
  simp only [processPages]
  unfold processPage
  simp only [milestoneList]
  rw [hrb]
  cases b with
  | false =>
    simp only [checkMilestones, hfd, hcheck]
    simp [handlerLog]
  | true =>
    simp only [checkMilestones, hfd, hcheck]
    simp [handlerLog]

set_option maxRecDepth 8000 in
/-- Witness for C4: the spec's abort scenario.  On 2024-05-14, page A's
first-draft date is tomorrow (notification dispatched); the bad page's
first-draft date is also tomorrow (dispatched) but its ready-by date is the
malformed string "2024-13-40"; a later page with a passing date is never
reached.  The run stops with the generic handler's log, keeps both earlier
dispatches, and exits 0. -/
theorem c4_witness :
    mainRun ⟨2024, 5, 14⟩ "C123" (fun _ _ => Except.ok ())
      (Except.ok { results := some [
        { id := some "A",
          properties := some [
            ("title", { type := some "title", title := some [{ plain_text := some "A" }] }),
            ("first_draft_date", { type := some "date", date := some { start := some "2024-05-15" } })] },
        { id := some "Bad",
          properties := some [
            ("title", { type := some "title", title := some [{ plain_text := some "Bad" }] }),
            ("first_draft_date", { type := some "date", date := some { start := some "2024-05-15" } }),
            ("ready_by_date", { type := some "date", date := some { start := some "2024-13-40" } })] },
        { id := some "C",
          properties := some [
            ("publishing_date", { type := some "date", date := some { start := some "2024-05-15" } })] }] }) =
      { processed := 2, sent := 2,
        dispatched :=
          [{ channel := "C123",
             text := build_message "Unknown Author" "A" "first draft",
             logged := none },
           { channel := "C123",
             text := build_message "Unknown Author" "Bad" "first draft",
             logged := none }],
        loggedError := some "An unexpected error occurred: 2024-13-40",
        summaryLogged := false, exitCode := 0 } :=
  (c4_parse_failure_aborts_run ⟨2024, 5, 14⟩ "C123" (fun _ _ => Except.ok ())
    [{ id := some "A",
       properties := some [
         ("title", { type := some "title", title := some [{ plain_text := some "A" }] }),
         ("first_draft_date", { type := some "date", date := some { start := some "2024-05-15" } })] }]
    [{ id := some "C",
       properties := some [
         ("publishing_date", { type := some "date", date := some { start := some "2024-05-15" } })] }]
    { id := some "Bad",
      properties := some [
        ("title", { type := some "title", title := some [{ plain_text := some "Bad" }] }),
        ("first_draft_date", { type := some "date", date := some { start := some "2024-05-15" } }),
        ("ready_by_date", { type := some "date", date := some { start := some "2024-13-40" } })] }
    "2024-13-40" true (by decide) (by decide) (by decide) (by decide) (by decide)).trans
    (by decide)
